import Mathlib

/-!
Verification of the solab token-monitoring core against its specification.

The definitions below are a shallow embedding of the Python source:

* `src/functions/gakeAnalysis.py` — the Gake monitor: token snapshots,
  address profiles, the price-change check, the common-token ("cluster")
  computation and the alert assembly.
* `src/functions/tokenHolderAnalysis.py` — the holder-analysis variant:
  balance-based profiles, the common-holdings ranking and the pairwise
  cluster analysis with its excluded base-asset set.

Python `dict`s are embedded as association lists in insertion order
(a Python dict iterates its keys in insertion order and keys are unique);
`set`s of identities are embedded as `Finset String`; `float` prices and
USD values are embedded as exact rationals `ℚ`; `datetime` stamps are
embedded as `Nat` (they are never computed with).  `list.sort(key=...,
reverse=True)` is a stable descending sort, embedded below as a stable
insertion sort (`stableSortDesc`), which agrees extensionally with any
stable sort.
-/

/-- Embedding of `TokenSnapshot` (gakeAnalysis.py, lines 38-47). -/
structure TokenSnapshot where
  contract_address : String
  symbol : String
  name : String
  market_cap : ℚ
  price : ℚ
  volume_1h : ℚ
  timestamp : Nat
deriving DecidableEq

/-- Embedding of `AddressProfile` (gakeAnalysis.py, lines 61-68). -/
structure AddressProfile where
  address : String
  transaction_count_7d : Nat
  transaction_count_30d : Nat
  common_tokens : List String
  cabal_tokens : List String
deriving DecidableEq

/-- Embedding of `AddressProfile.is_suspicious` (gakeAnalysis.py, lines 70-73):
`transaction_count_7d < max_tx_count or transaction_count_30d < max_tx_count`.
The Python default for `max_tx_count` is `50`; callers below pass it
explicitly. -/
def AddressProfile.is_suspicious (p : AddressProfile) (max_tx_count : Nat) : Bool :=
  decide (p.transaction_count_7d < max_tx_count) ||
    decide (p.transaction_count_30d < max_tx_count)

/-- Embedding of `AddressAnalyzer.find_suspicious_addresses`
(addressAnalysis.py, lines 247-279).  Note the condition there is a
conjunction: `tx_7d < max_tx_count_7d and tx_30d < max_tx_count_30d`. -/
def find_suspicious_addresses (profiles : List (String × AddressProfile))
    (max_tx_count_7d max_tx_count_30d : Nat) : List String :=
  (profiles.filter (fun p =>
    decide (p.2.transaction_count_7d < max_tx_count_7d) &&
      decide (p.2.transaction_count_30d < max_tx_count_30d))).map Prod.fst

/-- Key set of a snapshot dict (`set(snapshots.keys())`). -/
def snapKeys (snaps : List (String × TokenSnapshot)) : Finset String :=
  (snaps.map Prod.fst).toFinset

/-- Embedding of `common_addresses = set(current.keys()) & set(previous.keys())`
(gakeAnalysis.py, line 403): the identities submitted to price comparison. -/
def commonAddresses (previous current : List (String × TokenSnapshot)) :
    Finset String :=
  snapKeys current ∩ snapKeys previous

/-- Dict lookup on a snapshot association list. -/
def lookupSnap (snaps : List (String × TokenSnapshot)) (a : String) :
    Option TokenSnapshot :=
  (snaps.find? (fun p => p.1 == a)).map Prod.snd

/-- The per-pair price evaluation of `_check_price_changes`
(gakeAnalysis.py, lines 415-431): the percent increase is computed only
behind the guard `previous.price > 0`; otherwise the pair is skipped. -/
def priceEval (previous current : TokenSnapshot) : Option ℚ :=
  if 0 < previous.price then
    some ((current.price - previous.price) / previous.price * 100)
  else
    none

/-- Candidate test of `_check_price_changes` (gakeAnalysis.py, line 424):
a comparable pair is a candidate iff `price_increase >= threshold`. -/
def isCandidate (threshold : ℚ) (previous current : TokenSnapshot) : Bool :=
  match priceEval previous current with
  | some pci => decide (threshold ≤ pci)
  | none => false

/-- The set of token identities that pass the candidate test in one cycle
(gakeAnalysis.py, lines 397-431). -/
def candidateAddresses (threshold : ℚ)
    (previous current : List (String × TokenSnapshot)) : Finset String :=
  (commonAddresses previous current).filter (fun a =>
    (match lookupSnap current a, lookupSnap previous a with
      | some c, some p => isCandidate threshold p c
      | _, _ => false) = true)

/-- `insertFirst seen t` appends `t` unless already present: the insertion
order of keys into a Python dict (first appearance wins). -/
def insertFirst (seen : List String) (t : String) : List String :=
  if t ∈ seen then seen else seen ++ [t]

/-- The token identities in first-appearance order over the profile dict:
exactly the key insertion order of `token_count` in
`_find_common_tokens_with_count` (gakeAnalysis.py, lines 594-600). -/
def tokenOrder (profiles : List (String × AddressProfile)) : List String :=
  profiles.foldl (fun acc p => p.2.common_tokens.foldl insertFirst acc) []

/-- `token_count[token]` as a set (gakeAnalysis.py, lines 594-600): the
distinct profiled addresses whose token list contains `t`. -/
def supportSet (profiles : List (String × AddressProfile)) (t : String) :
    Finset String :=
  ((profiles.filter (fun p => t ∈ p.2.common_tokens)).map Prod.fst).toFinset

/-- `len(token_count[token])`: the supporting-address count of `t`. -/
def supportCount (profiles : List (String × AddressProfile)) (t : String) : Nat :=
  (supportSet profiles t).card

/-- One step of a stable descending insertion sort: `x` is placed before the
first element whose key is strictly smaller, after all elements whose key is
at least `key x` (so ties keep their existing relative order). -/
def insDesc (key : α → Nat) (x : α) : List α → List α
  | [] => [x]
  | y :: ys => if key y < key x then x :: y :: ys else y :: insDesc key x ys

/-- Stable descending sort by a `Nat` key: the embedding of Python's
`list.sort(key=..., reverse=True)` (Timsort is stable, and a stable
descending sort is extensionally unique). -/
def stableSortDesc (key : α → Nat) (l : List α) : List α :=
  l.foldl (fun acc x => insDesc key x acc) []

/-- The `common_tokens` accumulator of `_find_common_tokens_with_count`
before sorting (gakeAnalysis.py, lines 602-609): the tokens, in dict
insertion order, whose supporting-address count is at least
`min_addresses`. -/
def commonTokensList (profiles : List (String × AddressProfile))
    (min_addresses : Nat) : List String :=
  (tokenOrder profiles).filter
    (fun t => decide (min_addresses ≤ supportCount profiles t))

/-- Embedding of `GakeTokenMonitor._find_common_tokens_with_count`
(gakeAnalysis.py, lines 582-614): keep every token whose supporting-address
count is at least `min_addresses`, sort descending by that count, and also
return the per-token counts (in pre-sort dict order). -/
def findCommonTokensWithCount (profiles : List (String × AddressProfile))
    (min_addresses : Nat) : List String × List (String × Nat) :=
  (stableSortDesc (fun t => supportCount profiles t)
      (commonTokensList profiles min_addresses),
    (commonTokensList profiles min_addresses).map
      (fun t => (t, supportCount profiles t)))

/-- `all_cabal_tokens` accumulated over the profiles
(gakeAnalysis.py, lines 454-470). -/
def allCabalTokens (profiles : List (String × AddressProfile)) : Finset String :=
  profiles.foldl (fun s p => s ∪ p.2.cabal_tokens.toFinset) ∅

/-- Embedding of `GakeAlert` (gakeAnalysis.py, lines 76-87).  The
`analysis_time` field is dropped (it is `datetime.now()`, never computed
with). -/
structure GakeAlert where
  token : TokenSnapshot
  price_increase : ℚ
  suspicious_addresses : List String
  common_tokens : List String
  cabal_tokens : Finset String
  token_address_count : List (String × Nat)
  address_profiles : List (String × AddressProfile)
deriving DecidableEq

/-- The `suspicious_addresses` list of `_analyze_suspicious_activity`
(gakeAnalysis.py, lines 482-485): addresses whose profile satisfies
`is_suspicious()` (default threshold 50), in dict order. -/
def suspiciousAddressList (profiles : List (String × AddressProfile)) :
    List String :=
  (profiles.filter (fun p => p.2.is_suspicious 50)).map Prod.fst

/-- Embedding of `GakeTokenMonitor._analyze_suspicious_activity`
(gakeAnalysis.py, lines 437-525) from the point where the address profiles
have been collected: the common tokens are computed over the whole profile
dict with `min_addresses=3`; the suspicious addresses are those whose
profile satisfies `is_suspicious()` (threshold 50); if fewer than
`min_suspicious` are suspicious the candidate is discarded (`None`),
otherwise the alert is assembled with the common-token list truncated to
its first 50 entries. -/
def analyzeSuspiciousActivity (min_suspicious : Nat) (token : TokenSnapshot)
    (price_increase : ℚ) (profiles : List (String × AddressProfile)) :
    Option GakeAlert :=
  if min_suspicious ≤ (suspiciousAddressList profiles).length then
    some
      { token := token
        price_increase := price_increase
        suspicious_addresses := suspiciousAddressList profiles
        common_tokens := (findCommonTokensWithCount profiles 3).1.take 50
        cabal_tokens := allCabalTokens profiles
        token_address_count := (findCommonTokensWithCount profiles 3).2
        address_profiles := profiles }
  else
    none

/-- Embedding of `TokenHolderAnalyzer.excluded_tokens`
(tokenHolderAnalysis.py, lines 66-72): SOL and the major stablecoins,
excluded from the pairwise cluster analysis. -/
def excludedTokens : List String :=
  ["So11111111111111111111111111111111111111112",
   "EPjFWdd5AufqSSqeM2qN1xzybapC8G4wEGGkZwyTDt1v",
   "Es9vMFrzaCERmJfrF4H2FYD4KCoNkY11McCe8BenwNYB",
   "4k3Dyjzvzp8eMZWUXbBCjEvwSkkk59S5iCNLY3QrkX6R",
   "SRMuApVNdxXokk5GT7XD5cUUgXMBCoAz2LHeuAoKWRt"]

/-- Embedding of one entry of `profile.balances` (models.py `TokenBalance`);
the `value` string has been parsed to an exact rational. -/
structure TokenBalance where
  token_contract_address : String
  value : ℚ
deriving DecidableEq

/-- Embedding of one `holder_profiles` entry of
`TokenHolderAnalyzer.analyze_token_holders` as consumed by the cluster and
common-holdings analyses: an address together with its balance list. -/
structure HolderProfile where
  address : String
  balances : List TokenBalance
deriving DecidableEq

/-- Embedding of `address_tokens[address]` in
`TokenHolderAnalyzer._analyze_clusters` (tokenHolderAnalysis.py,
lines 354-362): the balance tokens that are not in the excluded set and
whose value exceeds 1 USD. -/
def addressTokenSet (p : HolderProfile) : Finset String :=
  ((p.balances.filter (fun b =>
    decide (b.token_contract_address ∉ excludedTokens) &&
      decide ((1 : ℚ) < b.value))).map
    (fun b => b.token_contract_address)).toFinset

/-- All ordered pairs `(l[i], l[j])` with `i < j`, as iterated by the nested
loops of `_analyze_clusters` (tokenHolderAnalysis.py, lines 368-370). -/
def listPairs : List α → List (α × α)
  | [] => []
  | x :: xs => xs.map (fun y => (x, y)) ++ listPairs xs

/-- One pairwise cluster produced by `_analyze_clusters`
(tokenHolderAnalysis.py, lines 377-382); the cluster score is
`2 * common_token_count`. -/
structure PairCluster where
  addr1 : String
  addr2 : String
  common_tokens : Finset String
deriving DecidableEq

/-- The cluster score of a pairwise cluster (`2 * len(common_tokens)`). -/
def PairCluster.score (c : PairCluster) : Nat :=
  2 * c.common_tokens.card

/-- Embedding of the pairwise part of `TokenHolderAnalyzer._analyze_clusters`
(tokenHolderAnalysis.py, lines 351-399): for every address pair with at
least two common (non-excluded, value > 1) tokens, a cluster is recorded;
the clusters are then sorted descending by cluster score. -/
def analyzeClusters (profiles : List HolderProfile) : List PairCluster :=
  stableSortDesc PairCluster.score
    ((listPairs profiles).filterMap (fun pq =>
      if 2 ≤ (addressTokenSet pq.1 ∩ addressTokenSet pq.2).card then
        some { addr1 := pq.1.address, addr2 := pq.2.address,
               common_tokens := addressTokenSet pq.1 ∩ addressTokenSet pq.2 }
      else
        none))

/-- The `(address, value)` entries appended to `token_holders[t]` in
`TokenHolderAnalyzer._analyze_common_holdings` (tokenHolderAnalysis.py,
lines 255-265): one entry per balance of token `t` in a profile. -/
def tokenHolderEntries (profiles : List HolderProfile) (t : String) :
    List (String × ℚ) :=
  profiles.flatMap (fun p =>
    (p.balances.filter (fun b => b.token_contract_address == t)).map
      (fun b => (p.address, b.value)))

/-- Token identities in first-appearance order over the balance lists: the
key insertion order of `token_holders` in `_analyze_common_holdings`. -/
def thaTokenOrder (profiles : List HolderProfile) : List String :=
  profiles.foldl (fun acc p =>
    (p.balances.map (fun b => b.token_contract_address)).foldl insertFirst acc) []

/-- Embedding of the qualification filter of
`TokenHolderAnalyzer._analyze_common_holdings` (tokenHolderAnalysis.py,
lines 267-283): a token is kept (with its holder count and aggregate value)
iff it has at least 3 holder entries and their total value strictly exceeds
10000 USD.  (The `if h["value"]` truthiness guard on the raw value string is
dropped: values are embedded as rationals.) -/
def commonHoldingTokens (profiles : List HolderProfile) :
    List (String × Nat × ℚ) :=
  (thaTokenOrder profiles).filterMap (fun t =>
    if 3 ≤ (tokenHolderEntries profiles t).length ∧
        10000 < ((tokenHolderEntries profiles t).map Prod.snd).sum then
      some (t, (tokenHolderEntries profiles t).length,
        ((tokenHolderEntries profiles t).map Prod.snd).sum)
    else
      none)

/-- A gake address profile enriched with per-token USD holdings, used only
to compare the code's cluster result against the specification's
value-minimum requirement. -/
structure ValuedProfile where
  address : String
  transaction_count_7d : Nat
  transaction_count_30d : Nat
  holdings : List (String × ℚ)
deriving DecidableEq

/-- Forgetting the values gives exactly the profile dict entry the gake
pipeline works with. -/
def ValuedProfile.toGakePair (p : ValuedProfile) : String × AddressProfile :=
  (p.address,
    { address := p.address
      transaction_count_7d := p.transaction_count_7d
      transaction_count_30d := p.transaction_count_30d
      common_tokens := p.holdings.map Prod.fst
      cabal_tokens := [] })

/-- Modelled from the spec (§4.4): "sum(value of that token held by those
addresses)" — the aggregate USD value of token `t` across the profiled
addresses that touched it.  There is no counterpart in the gake source
(its `AddressProfile` carries no values); this definition exists only to
state the spec's value-minimum condition for comparison. -/
def specAggregateValue (ps : List ValuedProfile) (t : String) : ℚ :=
  ((ps.filter (fun p => t ∈ p.holdings.map Prod.fst)).map
    (fun p => ((p.holdings.filter (fun h => h.1 == t)).map Prod.snd).sum)).sum

/-- The wrapped-SOL mint identity (first entry of the excluded set). -/
def solMint : String := "So11111111111111111111111111111111111111112"

/-- Concrete candidate snapshot for the C1 counterexample. -/
def demoTokenC1 : TokenSnapshot :=
  { contract_address := "CAND1", symbol := "CAND1", name := "Candidate1",
    market_cap := 20000, price := 1, volume_1h := 600, timestamp := 0 }

/-- Five suspicious profiled addresses that all traded SOL, the candidate
token itself and one ordinary token. -/
def demoProfilesC1 : List (String × AddressProfile) :=
  [("a1", ⟨"a1", 0, 0, [solMint, "CAND1", "T1"], []⟩),
   ("a2", ⟨"a2", 0, 0, [solMint, "CAND1", "T1"], []⟩),
   ("a3", ⟨"a3", 0, 0, [solMint, "CAND1", "T1"], []⟩),
   ("a4", ⟨"a4", 0, 0, [solMint, "CAND1", "T1"], []⟩),
   ("a5", ⟨"a5", 0, 0, [solMint, "CAND1", "T1"], []⟩)]

/-- The common-token list the C1 counterexample alert carries. -/
def demoCommonC1 : List String := [solMint, "CAND1", "T1"]

/-- Two holder profiles sharing two ordinary tokens, for the C1 witness. -/
def demoHoldersC1 : List HolderProfile :=
  [⟨"h1", [⟨"U1", 2⟩, ⟨"U2", 2⟩]⟩, ⟨"h2", [⟨"U1", 2⟩, ⟨"U2", 2⟩]⟩]

/-- The pairwise cluster `analyzeClusters` finds on `demoHoldersC1`. -/
def demoClusterC1 : PairCluster := ⟨"h1", "h2", {"U1", "U2"}⟩

/-- Concrete candidate snapshot for the C2 counterexample. -/
def demoTokenC2 : TokenSnapshot :=
  { contract_address := "CAND2", symbol := "CAND2", name := "Candidate2",
    market_cap := 20000, price := 1, volume_1h := 600, timestamp := 0 }

/-- Five suspicious profiles, the part both C2 inputs agree on. -/
def demoBaseC2 : List (String × AddressProfile) :=
  [("s1", ⟨"s1", 0, 0, ["T"], []⟩),
   ("s2", ⟨"s2", 0, 0, ["T"], []⟩),
   ("s3", ⟨"s3", 0, 0, ["T"], []⟩),
   ("s4", ⟨"s4", 0, 0, ["T"], []⟩),
   ("s5", ⟨"s5", 0, 0, ["T"], []⟩)]

/-- Three non-suspicious profiles (100 transactions in both windows) that
all traded token "U"; appended only in the first C2 input. -/
def demoExtraC2 : List (String × AddressProfile) :=
  [("n1", ⟨"n1", 100, 100, ["U"], []⟩),
   ("n2", ⟨"n2", 100, 100, ["U"], []⟩),
   ("n3", ⟨"n3", 100, 100, ["U"], []⟩)]

/-- Five valued profiles, each holding 10 USD of token "T": 5 supporting
addresses but an aggregate value of only 50 USD. -/
def demoValuedC3 : List ValuedProfile :=
  [⟨"v1", 0, 0, [("T", 10)]⟩,
   ⟨"v2", 0, 0, [("T", 10)]⟩,
   ⟨"v3", 0, 0, [("T", 10)]⟩,
   ⟨"v4", 0, 0, [("T", 10)]⟩,
   ⟨"v5", 0, 0, [("T", 10)]⟩]

/-- Three holder profiles each holding 20000 USD of token "V", for the C3
witness. -/
def demoHoldersC3 : List HolderProfile :=
  [⟨"w1", [⟨"V", 20000⟩]⟩, ⟨"w2", [⟨"V", 20000⟩]⟩, ⟨"w3", [⟨"V", 20000⟩]⟩]

/-- Previous snapshot at price 0.0010 for the C5 witness. -/
def demoPrevC5 : TokenSnapshot :=
  { contract_address := "TOK5", symbol := "TOK5", name := "Token5",
    market_cap := 20000, price := 1/1000, volume_1h := 600, timestamp := 0 }

/-- Current snapshot at price 0.0013 for the C5 witness. -/
def demoCurC5 : TokenSnapshot :=
  { contract_address := "TOK5", symbol := "TOK5", name := "Token5",
    market_cap := 26000, price := 13/10000, volume_1h := 600, timestamp := 1 }

/-- Previous snapshot with price 0 for the C6 witness. -/
def demoPrevC6 : TokenSnapshot :=
  { contract_address := "TOK6", symbol := "TOK6", name := "Token6",
    market_cap := 20000, price := 0, volume_1h := 600, timestamp := 0 }

/-- Current snapshot for the C6 witness. -/
def demoCurC6 : TokenSnapshot :=
  { contract_address := "TOK6", symbol := "TOK6", name := "Token6",
    market_cap := 25000, price := 5, volume_1h := 600, timestamp := 1 }

/-- Previous-generation dict for the C6 witness. -/
def demoPrevsC6 : List (String × TokenSnapshot) := [("TOK6", demoPrevC6)]

/-- Current-generation dict for the C6 witness. -/
def demoCursC6 : List (String × TokenSnapshot) := [("TOK6", demoCurC6)]

/-- Three suspicious profiles whose token lists share "B" and "A" (in that
first-appearance order), for the C9 counterexample. -/
def demoProfilesC9 : List (String × AddressProfile) :=
  [("c1", ⟨"c1", 0, 0, ["B", "A"], []⟩),
   ("c2", ⟨"c2", 0, 0, ["B", "A"], []⟩),
   ("c3", ⟨"c3", 0, 0, ["B", "A"], []⟩)]

/-- Concrete candidate snapshot for the C10 witness. -/
def demoTokenC10 : TokenSnapshot :=
  { contract_address := "CA10", symbol := "CA10", name := "Candidate10",
    market_cap := 20000, price := 1, volume_1h := 600, timestamp := 0 }

/-- Five suspicious profiles that all traded token "T", for the C10
witness. -/
def demoProfilesC10 : List (String × AddressProfile) :=
  [("p1", ⟨"p1", 0, 0, ["T"], []⟩),
   ("p2", ⟨"p2", 0, 0, ["T"], []⟩),
   ("p3", ⟨"p3", 0, 0, ["T"], []⟩),
   ("p4", ⟨"p4", 0, 0, ["T"], []⟩),
   ("p5", ⟨"p5", 0, 0, ["T"], []⟩)]

/-- The alert `analyzeSuspiciousActivity` assembles on `demoProfilesC10`. -/
def demoAlertC10 : GakeAlert :=
  { token := demoTokenC10
    price_increase := 25
    suspicious_addresses := ["p1", "p2", "p3", "p4", "p5"]
    common_tokens := ["T"]
    cabal_tokens := ∅
    token_address_count := [("T", 5)]
    address_profiles := demoProfilesC10 }

/-- Membership in one stable-insertion step. -/
theorem mem_insDesc (key : α → Nat) (x a : α) (l : List α) :
    a ∈ insDesc key x l ↔ a = x ∨ a ∈ l := by
  induction l with
  | nil => simp [insDesc]
  | cons y ys ih =>
    simp only [insDesc]
    split
    · simp [List.mem_cons]
    · simp only [List.mem_cons, ih]
      tauto

/-- Membership under the insertion-sort fold. -/
theorem mem_foldl_insDesc (key : α → Nat) (a : α) (l : List α) :
    ∀ acc : List α,
      (a ∈ l.foldl (fun acc x => insDesc key x acc) acc ↔ a ∈ acc ∨ a ∈ l) := by
  induction l with
  | nil => simp
  | cons y ys ih =>
    intro acc
    simp only [List.foldl_cons, ih, mem_insDesc, List.mem_cons]
    tauto

/-- The stable descending sort is a reordering: membership is unchanged. -/
theorem mem_stableSortDesc (key : α → Nat) (a : α) (l : List α) :
    a ∈ stableSortDesc key l ↔ a ∈ l := by
  simp [stableSortDesc, mem_foldl_insDesc]

/-- Inserting into a descending-sorted list keeps it descending-sorted. -/
theorem pairwise_insDesc (key : α → Nat) (x : α) (l : List α)
    (h : l.Pairwise (fun a b => key b ≤ key a)) :
    (insDesc key x l).Pairwise (fun a b => key b ≤ key a) := by
  induction l with
  | nil => simp [insDesc]
  | cons y ys ih =>
    rcases List.pairwise_cons.mp h with ⟨hy, hys⟩
    simp only [insDesc]
    split
    · rename_i hlt
      refine List.pairwise_cons.mpr ⟨?_, h⟩
      intro z hz
      rcases List.mem_cons.mp hz with rfl | hz
      · exact Nat.le_of_lt hlt
      · exact le_trans (hy z hz) (Nat.le_of_lt hlt)
    · rename_i hnlt
      refine List.pairwise_cons.mpr ⟨?_, ih hys⟩
      intro z hz
      rcases (mem_insDesc key x z ys).mp hz with rfl | hz
      · exact Nat.le_of_not_lt hnlt
      · exact hy z hz

/-- The insertion-sort fold keeps the accumulator descending-sorted. -/
theorem pairwise_foldl_insDesc (key : α → Nat) (l : List α) :
    ∀ acc : List α, acc.Pairwise (fun a b => key b ≤ key a) →
      (l.foldl (fun acc x => insDesc key x acc) acc).Pairwise
        (fun a b => key b ≤ key a) := by
  induction l with
  | nil => intro acc hacc; simpa using hacc
  | cons y ys ih => intro acc hacc; exact ih _ (pairwise_insDesc key y acc hacc)

/-- The stable descending sort yields a list with non-increasing keys. -/
theorem pairwise_stableSortDesc (key : α → Nat) (l : List α) :
    (stableSortDesc key l).Pairwise (fun a b => key b ≤ key a) :=
  pairwise_foldl_insDesc key l [] (by simp)

/-- Membership after a first-appearance insertion. -/
theorem mem_insertFirst (seen : List String) (t a : String) :
    a ∈ insertFirst seen t ↔ a ∈ seen ∨ a = t := by
  simp only [insertFirst]
  split
  · rename_i ht
    constructor
    · exact fun h => Or.inl h
    · rintro (h | rfl)
      · exact h
      · exact ht
  · simp [List.mem_append]

/-- Membership under the first-appearance fold. -/
theorem mem_foldl_insertFirst (ts : List String) (a : String) :
    ∀ acc : List String,
      (a ∈ ts.foldl insertFirst acc ↔ a ∈ acc ∨ a ∈ ts) := by
  induction ts with
  | nil => simp
  | cons t ts ih =>
    intro acc
    simp only [List.foldl_cons, ih, mem_insertFirst, List.mem_cons]
    tauto

/-- A token is in the first-appearance order iff some profiled address
listed it. -/
theorem mem_tokenOrder (profiles : List (String × AddressProfile))
    (t : String) :
    t ∈ tokenOrder profiles ↔ ∃ p ∈ profiles, t ∈ p.2.common_tokens := by
  have h : ∀ acc : List String,
      (t ∈ profiles.foldl
          (fun acc p => p.2.common_tokens.foldl insertFirst acc) acc ↔
        t ∈ acc ∨ ∃ p ∈ profiles, t ∈ p.2.common_tokens) := by
    induction profiles with
    | nil => simp
    | cons p ps ih =>
      intro acc
      simp only [List.foldl_cons, ih, mem_foldl_insertFirst,
        List.exists_mem_cons_iff]
      tauto
  simpa [tokenOrder] using h []

/-- Key-set membership of a snapshot dict, spelled on the raw entries. -/
theorem mem_snapKeys (snaps : List (String × TokenSnapshot)) (a : String) :
    a ∈ snapKeys snaps ↔ ∃ s, (a, s) ∈ snaps := by
  simp only [snapKeys, List.mem_toFinset, List.mem_map]
  constructor
  · rintro ⟨⟨a', s⟩, hmem, rfl⟩
    exact ⟨s, hmem⟩
  · rintro ⟨s, hmem⟩
    exact ⟨(a, s), hmem, rfl⟩

/-- Every token of an `address_tokens` entry passed the exclusion filter. -/
theorem addressTokenSet_not_excluded (p : HolderProfile) (t : String)
    (ht : t ∈ addressTokenSet p) : t ∉ excludedTokens := by
  simp only [addressTokenSet, List.mem_toFinset, List.mem_map] at ht
  rcases ht with ⟨b, hb, rfl⟩
  rcases List.mem_filter.mp hb with ⟨-, hcond⟩
  simp only [Bool.and_eq_true, decide_eq_true_eq] at hcond
  exact hcond.1

/-- C4: the derived predicate `is_suspicious` holds iff the 7-day
transaction count is below the threshold OR the 30-day transaction count is
below the threshold — a disjunction, not a conjunction. -/
theorem is_suspicious_iff_disjunction (p : AddressProfile)
    (max_tx_count : Nat) :
    p.is_suspicious max_tx_count = true ↔
      (p.transaction_count_7d < max_tx_count ∨
        p.transaction_count_30d < max_tx_count) := by
  simp [AddressProfile.is_suspicious]

/-- C5: for a comparable pair with positive previous price, the computed
percent increase is exactly `(cur - prev) / prev * 100`, and the pair is a
candidate iff that percent increase is at least the threshold (equality
included). -/
theorem priceEval_spec (threshold : ℚ) (previous current : TokenSnapshot)
    (h : 0 < previous.price) :
    priceEval previous current =
        some ((current.price - previous.price) / previous.price * 100) ∧
      (isCandidate threshold previous current = true ↔
        threshold ≤ (current.price - previous.price) / previous.price * 100) := by
  simp [priceEval, isCandidate, h]

/-- C5 witness: previous price 0.0010 and current price 0.0013 give exactly
30 percent, a candidate at threshold 30 (the boundary case). -/
theorem priceEval_spec_witness :
    priceEval demoPrevC5 demoCurC5 = some 30 ∧
      isCandidate 30 demoPrevC5 demoCurC5 = true := by
  have h0 : (0 : ℚ) < demoPrevC5.price := by norm_num [demoPrevC5]
  have h := priceEval_spec 30 demoPrevC5 demoCurC5 h0
  have hval :
      (demoCurC5.price - demoPrevC5.price) / demoPrevC5.price * 100 = 30 := by
    norm_num [demoPrevC5, demoCurC5]
  exact ⟨by rw [h.1, hval], h.2.mpr (le_of_eq hval.symm)⟩

/-- C6: a pair whose previous price is not positive is not evaluable — its
evaluation is `none` (the division is behind the positivity guard) and the
token never enters the candidate set. -/
theorem priceEval_skip_nonpositive (threshold : ℚ)
    (previous current : TokenSnapshot)
    (prevs curs : List (String × TokenSnapshot)) (a : String)
    (p : TokenSnapshot) (h : previous.price ≤ 0)
    (hl : lookupSnap prevs a = some p) (hp : p.price ≤ 0) :
    priceEval previous current = none ∧
      a ∉ candidateAddresses threshold prevs curs := by
  constructor
  · simp [priceEval, not_lt.mpr h]
  · intro hmem
    rcases Finset.mem_filter.mp hmem with ⟨-, hcand⟩
    rw [hl] at hcand
    rcases hcur : lookupSnap curs a with _ | c
    · rw [hcur] at hcand
      simp at hcand
    · rw [hcur] at hcand
      simp only [isCandidate, priceEval, not_lt.mpr hp, if_false] at hcand
      simp at hcand

/-- C6 witness: a token whose previous snapshot has price 0 is skipped and
produces no candidate. -/
theorem priceEval_skip_nonpositive_witness :
    priceEval demoPrevC6 demoCurC6 = none ∧
      "TOK6" ∉ candidateAddresses 20 demoPrevsC6 demoCursC6 :=
  priceEval_skip_nonpositive 20 demoPrevC6 demoCurC6 demoPrevsC6 demoCursC6
    "TOK6" demoPrevC6 (by norm_num [demoPrevC6]) rfl
    (by norm_num [demoPrevC6])

/-- C7: the candidate analysis returns no alert exactly when the number of
suspicious profiled addresses is strictly below the configured minimum; an
alert is assembled in every other case. -/
theorem analyze_none_iff_too_few_suspicious (min_suspicious : Nat)
    (token : TokenSnapshot) (price_increase : ℚ)
    (profiles : List (String × AddressProfile)) :
    analyzeSuspiciousActivity min_suspicious token price_increase profiles =
        none ↔
      (suspiciousAddressList profiles).length < min_suspicious := by
  by_cases h : min_suspicious ≤ (suspiciousAddressList profiles).length
  · simp [analyzeSuspiciousActivity, h, Nat.not_lt.mpr h]
  · simp [analyzeSuspiciousActivity, h, Nat.lt_of_not_le h]

/-- C8: the token identities submitted to price comparison are exactly those
present in both the previous and the current snapshot generation. -/
theorem commonAddresses_iff_both (prevs curs : List (String × TokenSnapshot))
    (a : String) :
    a ∈ commonAddresses prevs curs ↔
      ((∃ s, (a, s) ∈ curs) ∧ ∃ s, (a, s) ∈ prevs) := by
  simp [commonAddresses, Finset.mem_inter, mem_snapKeys]

/-- C1 counterexample: the common-token list delivered in an alert contains
the excluded SOL identity and the candidate token's own identity whenever
enough addresses traded them — the alert path applies no exclusion. -/
theorem alert_contains_excluded_counterexample :
    Option.map GakeAlert.common_tokens
        (analyzeSuspiciousActivity 5 demoTokenC1 25 demoProfilesC1) =
      some demoCommonC1 ∧
      solMint ∈ demoCommonC1 ∧
      solMint ∈ excludedTokens ∧
      demoTokenC1.contract_address ∈ demoCommonC1 := by
  refine ⟨by decide, by decide, by decide, by decide⟩

/-- C1 amended: only the holder-analysis cluster computation excludes the
base assets — no token of any pairwise cluster it emits is in the excluded
set; the alert path's common-token list excludes nothing (see the
counterexample, which also shows the candidate token itself is retained). -/
theorem clusters_exclude_base_assets (profiles : List HolderProfile)
    (c : PairCluster) (hc : c ∈ analyzeClusters profiles) (t : String)
    (ht : t ∈ c.common_tokens) : t ∉ excludedTokens := by
  rw [analyzeClusters, mem_stableSortDesc] at hc
  rcases List.mem_filterMap.mp hc with ⟨pq, hpq, hsome⟩
  split at hsome
  · rcases Option.some.inj hsome with rfl
    exact addressTokenSet_not_excluded pq.1 t (Finset.mem_inter.mp ht).1
  · cases hsome

/-- C1 witness: a concrete pairwise cluster exists and its tokens avoid
the excluded set. -/
theorem clusters_exclude_base_assets_witness : "U1" ∉ excludedTokens :=
  clusters_exclude_base_assets demoHoldersC1 demoClusterC1 (by decide)
    "U1" (by decide)

/-- C2 counterexample: two inputs that agree on the suspicious profiles
(the three extra profiles are non-suspicious) deliver different cluster
results in their alerts — non-suspicious profiles do contribute. -/
theorem cluster_uses_nonsuspicious_counterexample :
    (demoBaseC2 ++ demoExtraC2).filter (fun p => p.2.is_suspicious 50) =
        demoBaseC2.filter (fun p => p.2.is_suspicious 50) ∧
      Option.map GakeAlert.common_tokens
          (analyzeSuspiciousActivity 5 demoTokenC2 25
            (demoBaseC2 ++ demoExtraC2)) ≠
        Option.map GakeAlert.common_tokens
          (analyzeSuspiciousActivity 5 demoTokenC2 25 demoBaseC2) := by
  refine ⟨by decide, by decide⟩

/-- C2 amended: the cluster result is computed over the whole profiled
address set — a token is in the (pre-truncation) common-token list iff at
least `min_addresses` distinct profiled addresses, suspicious or not,
listed it. -/
theorem mem_cluster_iff_support (profiles : List (String × AddressProfile))
    (min_addresses : Nat) (t : String) :
    t ∈ (findCommonTokensWithCount profiles min_addresses).1 ↔
      (min_addresses ≤ supportCount profiles t ∧
        ∃ p ∈ profiles, t ∈ p.2.common_tokens) := by
  simp only [findCommonTokensWithCount, mem_stableSortDesc, commonTokensList,
    List.mem_filter, mem_tokenOrder, decide_eq_true_eq]
  tauto

/-- C3 counterexample: token "T" is supported by 5 addresses whose
aggregate holding of it is worth only 50 USD — far below the 10000 USD
minimum — yet it appears in the alert path's cluster result: the
address-count minimum alone suffices there. -/
theorem cluster_value_minimum_counterexample :
    "T" ∈ (findCommonTokensWithCount
        (demoValuedC3.map ValuedProfile.toGakePair) 3).1 ∧
      supportCount (demoValuedC3.map ValuedProfile.toGakePair) "T" = 5 ∧
      specAggregateValue demoValuedC3 "T" = 50 ∧
      ¬ (10000 : ℚ) ≤ specAggregateValue demoValuedC3 "T" := by
  refine ⟨by decide, by decide,
    by norm_num [specAggregateValue, demoValuedC3],
    by norm_num [specAggregateValue, demoValuedC3]⟩

/-- C3 amended: only the holder-analysis common-holdings ranking enforces
both minimums — every token it keeps has at least 3 holder entries and an
aggregate value strictly above 10000 USD; the alert path's cluster result
applies the address-count minimum only (see the counterexample). -/
theorem commonHoldings_enforce_both_minimums (profiles : List HolderProfile)
    (t : String) (n : Nat) (v : ℚ)
    (h : (t, n, v) ∈ commonHoldingTokens profiles) :
    3 ≤ n ∧ 10000 < v := by
  rcases List.mem_filterMap.mp h with ⟨t', ht', hsome⟩
  split at hsome
  · rename_i hcond
    rcases Option.some.inj hsome with heq
    obtain ⟨rfl, rfl, rfl⟩ := Prod.mk.injEq .. ▸ heq
    exact hcond
  · cases hsome

/-- C3 witness: a token with 3 holder entries worth 60000 USD in total is
kept, and both minimums hold for it. -/
theorem commonHoldings_enforce_both_minimums_witness :
    (3 : Nat) ≤ 3 ∧ (10000 : ℚ) < 60000 :=
  commonHoldings_enforce_both_minimums demoHoldersC3 "V" 3 60000
    (by norm_num [commonHoldingTokens, demoHoldersC3, thaTokenOrder,
      tokenHolderEntries, insertFirst])

/-- C9 counterexample: tokens "B" and "A" tie on supporting-address count
(and carry no value data), so the claimed tie-break — ascending token
identity — would order the result `["A", "B"]`; the code returns
`["B", "A"]`, the first-appearance order. -/
theorem cluster_order_counterexample :
    (findCommonTokensWithCount demoProfilesC9 3).1 = ["B", "A"] ∧
      (findCommonTokensWithCount demoProfilesC9 3).1 ≠ ["A", "B"] ∧
      supportCount demoProfilesC9 "A" = supportCount demoProfilesC9 "B" := by
  refine ⟨by decide, by decide, by decide⟩

/-- C9 amended: the cluster computation is deterministic and idempotent —
equal inputs give identical results — and the common-token list is ordered
by non-increasing supporting-address count; ties are left in the
deterministic first-appearance order, not re-ordered by value or
identity. -/
theorem cluster_deterministic_sorted
    (profiles profiles' : List (String × AddressProfile))
    (min_addresses : Nat) (h : profiles = profiles') :
    findCommonTokensWithCount profiles min_addresses =
        findCommonTokensWithCount profiles' min_addresses ∧
      (findCommonTokensWithCount profiles min_addresses).1.Pairwise
        (fun a b => supportCount profiles b ≤ supportCount profiles a) := by
  subst h
  refine ⟨rfl, ?_⟩
  simpa [findCommonTokensWithCount] using
    pairwise_stableSortDesc (fun t => supportCount profiles t)
      (commonTokensList profiles min_addresses)

/-- C9 witness: the deterministic, sorted result on a concrete profile
list. -/
theorem cluster_deterministic_sorted_witness :
    findCommonTokensWithCount demoProfilesC9 3 =
        findCommonTokensWithCount demoProfilesC9 3 ∧
      (findCommonTokensWithCount demoProfilesC9 3).1.Pairwise
        (fun a b =>
          supportCount demoProfilesC9 b ≤ supportCount demoProfilesC9 a) :=
  cluster_deterministic_sorted demoProfilesC9 demoProfilesC9 3 rfl

/-- C10: every alert the candidate analysis produces carries the cluster
result truncated to its first 50 tokens, so its common-token list never has
more than 50 entries. -/
theorem alert_common_tokens_capped (min_suspicious : Nat)
    (token : TokenSnapshot) (price_increase : ℚ)
    (profiles : List (String × AddressProfile)) (a : GakeAlert)
    (h : analyzeSuspiciousActivity min_suspicious token price_increase
        profiles = some a) :
    a.common_tokens = (findCommonTokensWithCount profiles 3).1.take 50 ∧
      a.common_tokens.length ≤ 50 := by
  rw [analyzeSuspiciousActivity] at h
  split at h
  · rcases Option.some.inj h with rfl
    exact ⟨rfl, List.length_take_le 50 _⟩
  · cases h

/-- C10 witness: a concrete produced alert, with its capped common-token
list. -/
theorem alert_common_tokens_capped_witness :
    demoAlertC10.common_tokens =
        (findCommonTokensWithCount demoProfilesC10 3).1.take 50 ∧
      demoAlertC10.common_tokens.length ≤ 50 :=
  alert_common_tokens_capped 5 demoTokenC10 25 demoProfilesC10 demoAlertC10
    (by decide)
